import Mathlib

/-!
Shallow embedding of the interactive bug-report display engine of the
`lotr-mod-discord-bot` repository (file `src/commands/bug_reports.rs`):
the `display_bugs` list renderer, the `buglist` command's session loop,
and the `bug` command's detail-view session loop, together with theorems
settling the spec claims about them.

External collaborators (the database module `crate::database::bug_reports`
providing `get_bug_list`, `change_bug_status`, the `BugStatus` type and the
per-item `Display` formatting, and the Discord transport) are not part of
the analysed sources; they are represented by parameters (the store as a
function from page offset to an optional fetch result, formatted bug lines
as plain strings) and, where a concrete type is needed, modelled from the
spec as documented below.
-/

namespace BugReports

/-- Modelled from the spec: the closed status set of `BugStatus`
(defined in the database module, which is outside the analysed sources).
The spec names the terminal variants resolved and closed, and the
statistics buckets resolved, low, medium, high, critical, closed,
forge-or-vanilla. -/
inductive BugStatus
  | resolved
  | low
  | medium
  | high
  | critical
  | closed
  | forgeVanilla
deriving DecidableEq

/-- One interactive control of an action row: label, the stable
`custom_id` carried by navigation/mutation controls (`None` for
link-style buttons, which carry a `url` instead), and the disabled
flag (buttons default to enabled; the source only ever sets
`disabled(true)`). -/
structure Button where
  label : String
  custom_id : Option String
  url : Option String
  disabled : Bool
deriving DecidableEq

/-- The navigation action row built by the `create_buttons!` macro inside
`display_bugs` (bug_reports.rs lines 242-271): a Previous button disabled
when `page <= 1` and a Next button disabled when `page * limit >= total_bugs`.
The source computes `page * limit` in u32, where the product wraps around
mod `2^32`; the wrap is reproduced here. -/
def listButtons (page limit total_bugs : Nat) : List Button :=
  [ { label := "Previous", custom_id := some "previous_page", url := none,
      disabled := decide (page ≤ 1) },
    { label := "Next", custom_id := some "next_page", url := none,
      disabled := decide ((page * limit) % 2 ^ 32 ≥ total_bugs) } ]

/-- Failure modes of `display_bugs`: the `assert_ne!(page, 0)` panic,
the `page_too_high` error, the `too_many_bugs` error, and the error
returned when `get_bug_list` yields nothing. -/
inductive DisplayErr
  | assertPageZero
  | pageTooHigh
  | tooManyBugs
  | databaseErr
deriving DecidableEq

/-- Result of `display_bugs` (`Result<Option<Message>, SerenityError>`):
an error, or success carrying whether a fresh message was returned
(`Some(response_message)` for the `Either::Message` target, `None` for
the `Either::Interaction` target). -/
inductive DisplayRes
  | err (e : DisplayErr)
  | okMsg (fresh : Bool)
deriving DecidableEq

/-- Which reply target `display_bugs` was given (the `Either` enum):
a fresh message replying to a command, or an in-place update of the
message that the triggering component interaction came from. -/
inductive ReplyTo
  | message
  | interaction
deriving DecidableEq

/-- The embed built by `create_embed_reponse!`: description and footer.
The title string (status Display name, marker glyph, legacy qualifier,
total count) is produced by `Display`/`marker` impls living in the
database module outside the analysed sources and no claim depends on it,
so it is not carried here. -/
structure ListEmbed where
  description : String
  footer : String
deriving DecidableEq

/-- Observable actions performed by `display_bugs`: a corrective failure
reply through the `Either::failure` helper, an in-place
`UpdateMessage` interaction response, or a freshly sent channel message. -/
inductive DisplayEffect
  | failureReply (target : ReplyTo) (text : String)
  | updateMsg (e : ListEmbed) (buttons : List Button)
  | sendMsg (e : ListEmbed) (buttons : List Button)
deriving DecidableEq

/-- Effects plus return value of one `display_bugs` call. -/
structure DisplayOut where
  effects : List DisplayEffect
  result : DisplayRes
deriving DecidableEq

/-- Corrective text sent when the page check fails (line 130). -/
def pageTooHighText : String :=
  "Page number too high, consider calling `!bugs` and using the navigation arrows."

/-- Corrective text sent when the body is too long (line 209). -/
def tooManyBugsText : String :=
  "Too many bugs to display. Consider lowering the limit."

/-- The footer page count expression of the embed
(line 234): `(total_bugs.max(1) - 1) / limit + 1`. -/
def footerPages (total_bugs limit : Nat) : Nat :=
  (max total_bugs 1 - 1) / limit + 1

/-- The footer text of the list embed (lines 230-236):
`Page {page}/{(total_bugs.max(1) - 1) / limit + 1}`. -/
def footerText (page total_bugs limit : Nat) : String :=
  "Page " ++ toString page ++ "/" ++ toString (footerPages total_bugs limit)

/-- Embedding of `display_bugs` (bug_reports.rs lines 115-304).

Parameters: `hasStatus` records whether a status filter was supplied
(selecting title branch and empty-state string); `getBugList` is the
external store, mapping the zero-based page offset to an optional pair
of the already-Display-formatted bug lines and the total count (the
per-item formatting lives in the database module outside the analysed
sources); `page` and `limit` are the u32 arguments. The u32 products
wrap around mod `2^32` and the wrap is reproduced here, in the range
check below and inside `listButtons`; `page - 1` is only taken after
the `page = 0` assert, so the Nat subtraction agrees with u32.

Control flow follows the source: `assert_ne!(page, 0)` (modelled as an
`assertPageZero` error, since a panic produces no further effects),
the fetch, the `((page - 1) * limit) >= total_bugs` check with its
wrapping u32 product, the joined body with its 4096-byte length check
(`content.len()` is a UTF-8 byte count), then the embed and buttons
delivered according to the reply target. -/
def displayBugs (hasStatus : Bool) (limit : Nat)
    (getBugList : Nat → Option (List String × Nat))
    (page : Nat) (reply_to : ReplyTo) : DisplayOut :=
  if page = 0 then ⟨[], .err .assertPageZero⟩
  else
    match getBugList (page - 1) with
    | none => ⟨[], .err .databaseErr⟩
    | some (bugs, total_bugs) =>
      if ((page - 1) * limit) % 2 ^ 32 ≥ total_bugs then
        ⟨[.failureReply reply_to pageTooHighText], .err .pageTooHigh⟩
      else
        let content := String.intercalate "\n" bugs
        let content_alt : String :=
          if hasStatus then "_No open bugs!_" else "_No bugs with this status!_"
        if content.utf8ByteSize > 4096 then
          ⟨[.failureReply reply_to tooManyBugsText], .err .tooManyBugs⟩
        else
          let e : ListEmbed :=
            { description := if bugs.isEmpty then content_alt else content,
              footer := footerText page total_bugs limit }
          match reply_to with
          | .interaction =>
            ⟨[.updateMsg e (listButtons page limit total_bugs)], .okMsg false⟩
          | .message =>
            ⟨[.sendMsg e (listButtons page limit total_bugs)], .okMsg true⟩

/-- The `buglist` page argument (line 336):
`args.single::<u32>().unwrap_or(1).max(1)`. A missing or unparsable
argument is `none`. -/
def pageArg (arg : Option Nat) : Nat :=
  max (arg.getD 1) 1

/-- One component interaction received by a collector: the clicking
user's id and the control's `custom_id`. -/
structure Interaction where
  user : Nat
  custom_id : String
deriving DecidableEq

/-- Denial text sent to non-owners in the `buglist` loop (line 373). -/
def notOwnerText : String :=
  "You are not the original user of the command! Call `!bugs` yourself to use the buttons."

/-- Observable actions of the `buglist` session loop: an ephemeral
denial reply, an effect of a nested `display_bugs` call, or the final
edit of the response message with empty components (line 404). -/
inductive ListLoopEffect
  | denial (user : Nat) (text : String)
  | fromDisplay (eff : DisplayEffect)
  | stripAll
deriving DecidableEq

/-- Outcome of the `buglist` session loop: `finished` when the loop ran
to its timeout and the strip edit, `aborted e` when a `display_bugs`
error propagated out of `buglist` through `?`. -/
inductive LoopOutcome
  | finished
  | aborted (e : DisplayErr)
deriving DecidableEq

/-- The owner-event page update of the `buglist` loop (lines 380-390):
`"previous_page"` decrements `page` when `page != 0` (the guard is
against going below zero, not below one), `"next_page"` increments it,
and any other identifier leaves it unchanged. -/
def buglistPageStep (custom_id : String) (page : Nat) : Nat :=
  match custom_id with
  | "previous_page" => if page ≠ 0 then page - 1 else page
  | "next_page" => page + 1
  | _ => page

/-- Embedding of the `buglist` session loop (bug_reports.rs lines
363-406). The collector yields the interactions of `events` in order;
an exhausted list is the 60-second timeout, upon which the loop exits
and the response message is edited with empty components. A non-owner
event gets an ephemeral denial and the loop continues with the page
unchanged. An owner event updates the page, then calls `display_bugs`
with the `Either::Interaction` target; an error there propagates via
`?` out of `buglist` (so the strip edit never runs), and on success the
loop continues at the new page. Returns the effects performed and the
loop's outcome. -/
def buglistRun (owner : Nat) (hasStatus : Bool) (limit : Nat)
    (getBugList : Nat → Option (List String × Nat)) (page : Nat) :
    List Interaction → List ListLoopEffect × LoopOutcome
  | [] => ([.stripAll], .finished)
  | i :: rest =>
    if i.user ≠ owner then
      let next := buglistRun owner hasStatus limit getBugList page rest
      (.denial i.user notOwnerText :: next.1, next.2)
    else
      let newPage := buglistPageStep i.custom_id page
      let out := displayBugs hasStatus limit getBugList newPage .interaction
      match out.result with
      | .err e => (out.effects.map .fromDisplay, .aborted e)
      | .okMsg _ =>
        let next := buglistRun owner hasStatus limit getBugList newPage rest
        (out.effects.map .fromDisplay ++ next.1, next.2)

/-- Denial text sent to non-owners in the `bug` detail loop (line 584). -/
def modifyDenialText : String :=
  "You are not allowed to modify bug status!"

/-- The one-argument form of `create_bug_buttons!` (lines 496-507), used
for the post-mutation re-render and the post-timeout edit: a single
action row holding only the link-style "Message link" button when a
message URL resolved, and no row at all otherwise. -/
def bugButtonsLinkOnly (message_link : Option String) : List Button :=
  match message_link with
  | some link =>
    [ { label := "Message link", custom_id := none, url := some link,
        disabled := false } ]
  | none => []

/-- The two-argument form of `create_bug_buttons!` (lines 508-535), used
for the initial detail render: when a message link resolved or mutating
buttons are wanted, one action row with the optional link button followed,
when `create_buttons` holds, by the Resolve and Close buttons. -/
def bugButtons (message_link : Option String) (create_buttons : Bool) : List Button :=
  if message_link.isSome || create_buttons then
    bugButtonsLinkOnly message_link ++
      (if create_buttons then
        [ { label := "Resolve", custom_id := some "resolve_bug", url := none,
            disabled := false },
          { label := "Close", custom_id := some "close_bug", url := none,
            disabled := false } ]
      else [])
  else []

/-- The initial `create_buttons` condition of the `bug` command (lines
558-560): the status is not terminal and the actor is authorized
(`msg.author.id == OWNER_ID || (is_lotr_discord && is_admin)`,
abstracted as a boolean since the admin lookup lives in the database
module outside the analysed sources). -/
def canCreateButtons (status : BugStatus) (authorized : Bool) : Bool :=
  status ≠ BugStatus.resolved && status ≠ BugStatus.closed && authorized

/-- The identifier-to-status routing of the detail loop (lines 589-593):
`"resolve_bug"` selects `Resolved`, `"close_bug"` selects `Closed`, and
every other identifier hits `unreachable!()`, modelled as `none`. -/
def routeStatus (custom_id : String) : Option BugStatus :=
  match custom_id with
  | "resolve_bug" => some BugStatus.resolved
  | "close_bug" => some BugStatus.closed
  | _ => none

/-- Observable actions of the `bug` detail loop: an ephemeral denial
reply, the `change_bug_status` store call, the in-place `UpdateMessage`
re-render (carrying the snapshot status it renders and its buttons), and
the post-timeout edit of the response message's components. -/
inductive DetailEffect
  | denial (user : Nat) (text : String)
  | storeStatus (new_status : BugStatus)
  | updateMsg (status : BugStatus) (buttons : List Button)
  | editButtons (buttons : List Button)
deriving DecidableEq

/-- Embedding of the `bug` detail-view interaction loop (bug_reports.rs
lines 572-614), entered with `create_buttons` true. The collector yields
the interactions of `events` in order; an exhausted list is the timeout.
A non-owner event gets an ephemeral denial and the loop continues. An
owner event routes its identifier through `routeStatus`; an unroutable
identifier is the `unreachable!()` panic, modelled as `none`. Otherwise
the status is applied through the store, the snapshot status updated,
the message re-rendered in place with the one-argument (link-only)
buttons, `create_buttons` set to false, and the loop breaks at once.
Returns the final snapshot status, the final `create_buttons` flag and
the effects, or `none` for a panic. -/
def bugRun (owner : Nat) (message_link : Option String) (status : BugStatus) :
    List Interaction → Option (BugStatus × Bool × List DetailEffect)
  | [] => some (status, true, [])
  | i :: rest =>
    if i.user ≠ owner then
      match bugRun owner message_link status rest with
      | none => none
      | some (st, cb, effs) =>
        some (st, cb, DetailEffect.denial i.user modifyDenialText :: effs)
    else
      match routeStatus i.custom_id with
      | none => none
      | some new_status =>
        some (new_status, false,
          [DetailEffect.storeStatus new_status,
           DetailEffect.updateMsg new_status (bugButtonsLinkOnly message_link)])

/-- The detail loop followed by the post-loop timeout edit (lines
616-621): when the loop exits with `create_buttons` still true (no
mutation happened), the response message is edited with the
one-argument (link-only) buttons. -/
def bugSession (owner : Nat) (message_link : Option String) (status : BugStatus)
    (events : List Interaction) : Option (BugStatus × List DetailEffect) :=
  match bugRun owner message_link status events with
  | none => none
  | some (st, cb, effs) =>
    some (st, effs ++
      (if cb then [DetailEffect.editButtons (bugButtonsLinkOnly message_link)] else []))

/-- The failure condition of claim C1, written from the spec's words
(for comparison with the source's check): PageOutOfRange holds when
`(page-1)*limit >= total` with `total > 0`, or when `page > 1` with
`total == 0` — and, implicitly, in no other case. -/
def c1ClaimCond (page limit total_bugs : Nat) : Prop :=
  (total_bugs ≤ (page - 1) * limit ∧ 0 < total_bugs) ∨ (1 < page ∧ total_bugs = 0)

/-! Helper lemmas, shared by several claim theorems. -/

/-- Helper: `display_bugs` on a nonzero in-range page whose fetch
succeeds and whose joined body passes the length check performs exactly
one render effect, selected by the reply target. -/
theorem displayBugs_eq_render (hasStatus : Bool) (limit page total_bugs : Nat)
    (bugs : List String) (gb : Nat → Option (List String × Nat)) (t : ReplyTo)
    (hp : page ≠ 0) (hgb : gb (page - 1) = some (bugs, total_bugs))
    (hrange : ((page - 1) * limit) % 2 ^ 32 < total_bugs)
    (hlen : (String.intercalate "\n" bugs).utf8ByteSize ≤ 4096) :
    displayBugs hasStatus limit gb page t
      = ⟨[(match t with
           | .interaction => DisplayEffect.updateMsg
           | .message => DisplayEffect.sendMsg)
            { description :=
                if bugs.isEmpty then
                  (if hasStatus then "_No open bugs!_" else "_No bugs with this status!_")
                else String.intercalate "\n" bugs,
              footer := footerText page total_bugs limit }
            (listButtons page limit total_bugs)],
          .okMsg (match t with | .interaction => false | .message => true)⟩ := by
  unfold displayBugs
  rw [if_neg hp, hgb]
  have h1 : ¬ (((page - 1) * limit) % 2 ^ 32 ≥ total_bugs) := by omega
  have h2 : ¬ ((String.intercalate "\n" bugs).utf8ByteSize > 4096) := by omega
  refine (if_neg h1).trans ?_
  refine (if_neg h2).trans ?_
  cases t <;> rfl

/-- Helper: `display_bugs` fails with `page_too_high`, producing only
the corrective reply, whenever the fetch succeeds and the wrapping u32
product satisfies `(page - 1) * limit >= total_bugs`. -/
theorem displayBugs_eq_tooHigh (hasStatus : Bool) (limit page total_bugs : Nat)
    (bugs : List String) (gb : Nat → Option (List String × Nat)) (t : ReplyTo)
    (hp : page ≠ 0) (hgb : gb (page - 1) = some (bugs, total_bugs))
    (hrange : total_bugs ≤ ((page - 1) * limit) % 2 ^ 32) :
    displayBugs hasStatus limit gb page t
      = ⟨[DisplayEffect.failureReply t pageTooHighText], .err .pageTooHigh⟩ := by
  unfold displayBugs
  rw [if_neg hp, hgb]
  exact if_pos hrange

/-- Helper: `display_bugs` fails with `too_many_bugs`, producing only
the corrective reply, whenever the fetch succeeds, the page is in range
and the joined body exceeds 4096 bytes. -/
theorem displayBugs_eq_tooMany (hasStatus : Bool) (limit page total_bugs : Nat)
    (bugs : List String) (gb : Nat → Option (List String × Nat)) (t : ReplyTo)
    (hp : page ≠ 0) (hgb : gb (page - 1) = some (bugs, total_bugs))
    (hrange : ((page - 1) * limit) % 2 ^ 32 < total_bugs)
    (hlen : 4096 < (String.intercalate "\n" bugs).utf8ByteSize) :
    displayBugs hasStatus limit gb page t
      = ⟨[DisplayEffect.failureReply t tooManyBugsText], .err .tooManyBugs⟩ := by
  unfold displayBugs
  rw [if_neg hp, hgb]
  have h1 : ¬ (((page - 1) * limit) % 2 ^ 32 ≥ total_bugs) := by omega
  refine (if_neg h1).trans ?_
  exact if_pos hlen

/-- Helper: a non-owner event at the head of the detail loop prepends an
ephemeral denial and continues with the same snapshot. -/
theorem bugRun_cons_nonowner (owner : Nat) (mlink : Option String) (status : BugStatus)
    (i : Interaction) (rest : List Interaction) (hi : i.user ≠ owner) :
    bugRun owner mlink status (i :: rest)
      = (bugRun owner mlink status rest).map
          (fun r => (r.1, r.2.1, DetailEffect.denial i.user modifyDenialText :: r.2.2)) := by
  cases h : bugRun owner mlink status rest <;> simp [bugRun, hi, h]

/-- Helper: a prefix of non-owner events in the detail loop contributes
one ephemeral denial each and leaves the rest of the run, and the
snapshot it starts from, unchanged. -/
theorem bugRun_append_nonowner (owner : Nat) (mlink : Option String) (status : BugStatus)
    (pre evs : List Interaction) (hpre : ∀ e ∈ pre, e.user ≠ owner) :
    bugRun owner mlink status (pre ++ evs)
      = (bugRun owner mlink status evs).map
          (fun r => (r.1, r.2.1,
            pre.map (fun e => DetailEffect.denial e.user modifyDenialText) ++ r.2.2)) := by
  induction pre with
  | nil => cases h : bugRun owner mlink status evs <;> simp [h]
  | cons a pre ih =>
    have ha : a.user ≠ owner := hpre a (List.mem_cons_self a pre)
    have hpre' : ∀ e ∈ pre, e.user ≠ owner := fun e he => hpre e (List.mem_cons_of_mem a he)
    rw [List.cons_append, bugRun_cons_nonowner owner mlink status a (pre ++ evs) ha,
      ih hpre']
    cases h : bugRun owner mlink status evs <;> simp [h]

/-- Helper: a non-owner event at the head of the list loop prepends an
ephemeral denial and continues at the same page. -/
theorem buglistRun_cons_nonowner (owner : Nat) (hasStatus : Bool) (limit : Nat)
    (gb : Nat → Option (List String × Nat)) (page : Nat)
    (i : Interaction) (rest : List Interaction) (hi : i.user ≠ owner) :
    buglistRun owner hasStatus limit gb page (i :: rest)
      = (ListLoopEffect.denial i.user notOwnerText
            :: (buglistRun owner hasStatus limit gb page rest).1,
         (buglistRun owner hasStatus limit gb page rest).2) := by
  simp [buglistRun, hi]

/-- Helper: a prefix of non-owner events in the list loop contributes
one ephemeral denial each and leaves the rest of the run, and the page
it starts from, unchanged. -/
theorem buglistRun_append_nonowner (owner : Nat) (hasStatus : Bool) (limit : Nat)
    (gb : Nat → Option (List String × Nat)) (page : Nat)
    (pre evs : List Interaction) (hpre : ∀ e ∈ pre, e.user ≠ owner) :
    buglistRun owner hasStatus limit gb page (pre ++ evs)
      = (pre.map (fun e => ListLoopEffect.denial e.user notOwnerText)
            ++ (buglistRun owner hasStatus limit gb page evs).1,
         (buglistRun owner hasStatus limit gb page evs).2) := by
  induction pre with
  | nil => simp
  | cons a pre ih =>
    have ha : a.user ≠ owner := hpre a (List.mem_cons_self a pre)
    have hpre' : ∀ e ∈ pre, e.user ≠ owner := fun e he => hpre e (List.mem_cons_of_mem a he)
    rw [List.cons_append,
      buglistRun_cons_nonowner owner hasStatus limit gb page a (pre ++ evs) ha, ih hpre']
    simp

/-- Helper: an owner event whose identifier routes to a status mutates
through the store, updates the snapshot, re-renders with the link-only
buttons and breaks out of the detail loop at once. -/
theorem bugRun_owner_mutation (owner : Nat) (mlink : Option String)
    (status new_status : BugStatus) (i : Interaction) (rest : List Interaction)
    (hi : i.user = owner) (hroute : routeStatus i.custom_id = some new_status) :
    bugRun owner mlink status (i :: rest)
      = some (new_status, false,
          [DetailEffect.storeStatus new_status,
           DetailEffect.updateMsg new_status (bugButtonsLinkOnly mlink)]) := by
  simp [bugRun, hi, hroute]

/-- Helper: the link-only button row carries no `custom_id`, hence no
navigation or mutation control. -/
theorem bugButtonsLinkOnly_no_custom_id (mlink : Option String) :
    ∀ b ∈ bugButtonsLinkOnly mlink, b.custom_id = none := by
  cases mlink <;> simp [bugButtonsLinkOnly]

/-- Helper: the UTF-8 byte size of a string of `n` letters `a` is `n`. -/
theorem utf8ByteSize_go_replicate (n : Nat) :
    String.utf8ByteSize.go (List.replicate n 'a') = n := by
  induction n with
  | zero => rfl
  | succ n ih =>
    rw [List.replicate_succ]
    show String.utf8ByteSize.go (List.replicate n 'a') + Char.utf8Size 'a' = n + 1
    rw [ih]
    rfl

/-! Claim theorems. -/

/-- Claim C1, counterexample: at `page = 1`, `total = 0` the source's
check `((page - 1) * limit) >= total_bugs` reads `0 >= 0` and fails with
PageOutOfRange, although the claim's condition does not hold there and
the claim says this input proceeds to render the empty-state body. -/
theorem c1_counterexample :
    (displayBugs true 10 (fun _ => some ([], 0)) 1 .message).result
        = .err .pageTooHigh ∧ ¬ c1ClaimCond 1 10 0 := by
  refine ⟨by decide, ?_⟩
  unfold c1ClaimCond
  decide

/-- Claim C1, amended: for every nonzero page whose fetch succeeds, the
list display fails with PageOutOfRange exactly when the wrapping u32
product `(page - 1) * limit` (taken mod `2^32`, as the source computes
it) is at least `total` — including `page = 1` with `total = 0`, so an
empty fetch never reaches the empty-state rendering through a first
page. Whenever the product does not wrap this is the plain
`(page - 1) * limit >= total`; a wrapping product instead renders, as
the closing conjunct shows at `page = 2^31 + 1`, `limit = 2`,
`total = 5`. -/
theorem c1_amended_pageOutOfRange (hasStatus : Bool) (limit page total_bugs : Nat)
    (bugs : List String) (gb : Nat → Option (List String × Nat)) (t : ReplyTo)
    (hp : page ≠ 0) (hgb : gb (page - 1) = some (bugs, total_bugs)) :
    ((displayBugs hasStatus limit gb page t).result = .err .pageTooHigh
      ↔ total_bugs ≤ ((page - 1) * limit) % 2 ^ 32) ∧
    ((page - 1) * limit < 2 ^ 32 →
      ((displayBugs hasStatus limit gb page t).result = .err .pageTooHigh
        ↔ total_bugs ≤ (page - 1) * limit)) ∧
    (displayBugs true 2 (fun _ => some (["a"], 5)) (2 ^ 31 + 1) .message).result
      = .okMsg true := by
  have main : (displayBugs hasStatus limit gb page t).result = .err .pageTooHigh
      ↔ total_bugs ≤ ((page - 1) * limit) % 2 ^ 32 := by
    constructor
    · intro h
      by_contra hc
      push_neg at hc
      by_cases hlen : 4096 < (String.intercalate "\n" bugs).utf8ByteSize
      · rw [displayBugs_eq_tooMany hasStatus limit page total_bugs bugs gb t hp hgb hc
          hlen] at h
        simp at h
      · rw [displayBugs_eq_render hasStatus limit page total_bugs bugs gb t hp hgb hc
          (by omega)] at h
        cases t <;> simp at h
    · intro h
      rw [displayBugs_eq_tooHigh hasStatus limit page total_bugs bugs gb t hp hgb h]
  refine ⟨main, fun hw => ?_, by decide⟩
  rw [main, Nat.mod_eq_of_lt hw]

/-- Claim C1, witness: Example C of the spec — `total = 23`,
`limit = 10`, `page = 4` fails with PageOutOfRange, and its product 30
does not wrap, so the plain condition applies. -/
theorem c1_amended_witness :
    (((displayBugs true 10 (fun _ => some (["a"], 23)) 4 .message).result
        = .err .pageTooHigh) ↔ (23 : Nat) ≤ ((4 - 1) * 10) % 2 ^ 32) ∧
    ((4 - 1) * 10 < 2 ^ 32 →
      (((displayBugs true 10 (fun _ => some (["a"], 23)) 4 .message).result
        = .err .pageTooHigh) ↔ (23 : Nat) ≤ (4 - 1) * 10)) ∧
    (displayBugs true 2 (fun _ => some (["a"], 5)) (2 ^ 31 + 1) .message).result
      = .okMsg true :=
  c1_amended_pageOutOfRange true 10 4 23 ["a"] (fun _ => some (["a"], 23)) .message
    (by decide) rfl

/-- Claim C2: the claim is right and the code is wrong. The loop's
"previous" handler guards only against going below zero, so an owner
"previous_page" event at page 1 drives the page to 0, and the ensuing
fetch call trips the code's own `assert_ne!(page, 0)` — evaluated here
on the concrete failing input. -/
theorem c2_assert_violation :
    buglistPageStep "previous_page" 1 = 0 ∧
    buglistRun 7 true 10 (fun _ => some (["x"], 23)) 1 [⟨7, "previous_page"⟩]
      = ([], .aborted .assertPageZero) :=
  ⟨rfl, by decide⟩

/-- Claim C3: in the detail loop, after any run of non-owner events, an
owner event whose identifier selects a terminal status applies it
through the store, updates the snapshot's status to it, re-renders the
message with the mutating controls stripped (only the link-out button,
which carries no `custom_id`, may remain), and ends the loop at once —
the remaining events are never awaited and no post-timeout edit runs. -/
theorem c3_theorem (owner : Nat) (mlink : Option String) (status new_status : BugStatus)
    (pre : List Interaction) (i : Interaction) (rest : List Interaction)
    (hpre : ∀ e ∈ pre, e.user ≠ owner) (hi : i.user = owner)
    (hroute : routeStatus i.custom_id = some new_status) :
    bugSession owner mlink status (pre ++ i :: rest)
      = some (new_status,
          pre.map (fun e => DetailEffect.denial e.user modifyDenialText)
            ++ [DetailEffect.storeStatus new_status,
                DetailEffect.updateMsg new_status (bugButtonsLinkOnly mlink)]) ∧
    (∀ b ∈ bugButtonsLinkOnly mlink, b.custom_id = none) := by
  refine ⟨?_, bugButtonsLinkOnly_no_custom_id mlink⟩
  unfold bugSession
  rw [bugRun_append_nonowner owner mlink status pre (i :: rest) hpre,
    bugRun_owner_mutation owner mlink status new_status i rest hi hroute]
  simp

/-- Claim C3, witness: Example D shape — a non-owner click, then the
owner clicks "resolve"; the status becomes resolved, exactly one store
mutation happens, and the trailing "close" click is never processed. -/
theorem c3_witness :
    bugSession 1 none BugStatus.medium
        ([⟨2, "resolve_bug"⟩] ++ ⟨1, "resolve_bug"⟩ :: [⟨1, "close_bug"⟩])
      = some (BugStatus.resolved,
          ([⟨2, "resolve_bug"⟩] : List Interaction).map
              (fun e => DetailEffect.denial e.user modifyDenialText)
            ++ [DetailEffect.storeStatus BugStatus.resolved,
                DetailEffect.updateMsg BugStatus.resolved (bugButtonsLinkOnly none)]) ∧
    (∀ b ∈ bugButtonsLinkOnly (none : Option String), b.custom_id = none) :=
  c3_theorem 1 none BugStatus.medium BugStatus.resolved [⟨2, "resolve_bug"⟩]
    ⟨1, "resolve_bug"⟩ [⟨1, "close_bug"⟩] (by decide) rfl (by decide)

/-- Claim C4: in both loops, any run of non-owner events yields one
private ephemeral denial per event, leaves the snapshot (the page
number, and the status the detail loop started from) unchanged, and the
loop continues with the remaining events rather than terminating. -/
theorem c4_theorem (owner : Nat) (pre : List Interaction)
    (hpre : ∀ e ∈ pre, e.user ≠ owner) :
    (∀ (hasStatus : Bool) (limit : Nat) (gb : Nat → Option (List String × Nat))
       (page : Nat) (evs : List Interaction),
       buglistRun owner hasStatus limit gb page (pre ++ evs)
         = (pre.map (fun e => ListLoopEffect.denial e.user notOwnerText)
               ++ (buglistRun owner hasStatus limit gb page evs).1,
            (buglistRun owner hasStatus limit gb page evs).2)) ∧
    (∀ (mlink : Option String) (status : BugStatus) (evs : List Interaction),
       bugRun owner mlink status (pre ++ evs)
         = (bugRun owner mlink status evs).map
             (fun r => (r.1, r.2.1,
               pre.map (fun e => DetailEffect.denial e.user modifyDenialText) ++ r.2.2))) :=
  ⟨fun hasStatus limit gb page evs =>
      buglistRun_append_nonowner owner hasStatus limit gb page pre evs hpre,
   fun mlink status evs => bugRun_append_nonowner owner mlink status pre evs hpre⟩

/-- Claim C4, witness: the detail loop at a concrete non-owner event. -/
theorem c4_witness :
    bugRun 1 none BugStatus.medium ([⟨2, "x"⟩] ++ [])
      = (bugRun 1 none BugStatus.medium []).map
          (fun r => (r.1, r.2.1,
            ([⟨2, "x"⟩] : List Interaction).map
              (fun e => DetailEffect.denial e.user modifyDenialText) ++ r.2.2)) :=
  (c4_theorem 1 [⟨2, "x"⟩] (by decide)).2 none BugStatus.medium []

/-- Claim C5, counterexample: on a detail-view timeout with a resolvable
message link, the final edit still carries the link-out control — one
control, not zero as the claim states for both loops. -/
theorem c5_counterexample :
    bugSession 1 (some "https://discord.com/x") BugStatus.medium []
      = some (BugStatus.medium,
          [DetailEffect.editButtons
            [⟨"Message link", none, some "https://discord.com/x", false⟩]]) ∧
    (⟨"Message link", none, some "https://discord.com/x", false⟩ : Button) :: ([] : List Button)
      ≠ [] := by
  exact ⟨by decide, by decide⟩

/-- Claim C5, amended: when the wait expires with no event, both loops
terminate and edit the session's message; the list view's final render
has zero controls, while the detail view's final render strips the
mutating controls, keeping only the link-out button (no `custom_id`)
when a message URL resolved and zero controls otherwise. -/
theorem c5_amended_theorem (owner : Nat) (hasStatus : Bool) (limit : Nat)
    (gb : Nat → Option (List String × Nat)) (page : Nat)
    (mlink : Option String) (status : BugStatus) :
    buglistRun owner hasStatus limit gb page [] = ([ListLoopEffect.stripAll], .finished) ∧
    bugSession owner mlink status []
      = some (status, [DetailEffect.editButtons (bugButtonsLinkOnly mlink)]) ∧
    (∀ b ∈ bugButtonsLinkOnly mlink, b.custom_id = none) ∧
    (mlink = none → bugButtonsLinkOnly mlink = []) := by
  refine ⟨rfl, ?_, bugButtonsLinkOnly_no_custom_id mlink, ?_⟩
  · simp [bugSession, bugRun]
  · rintro rfl; rfl

/-- Claim C6, counterexample: at `page = 2^31 + 1`, `limit = 2`,
`total = 5` — representable u32 inputs with `page >= 1`, `limit >= 1`
and, mathematically, `page * limit >= total` — the source's u32 product
wraps to 2, so the rendered Next control stays enabled although the
claim asserts it disabled. -/
theorem c6_counterexample :
    (1 : Nat) ≤ 2 ^ 31 + 1 ∧ (1 : Nat) ≤ 2 ∧ (2 ^ 31 + 1) * 2 ≥ (5 : Nat) ∧
    (listButtons (2 ^ 31 + 1) 2 5).map Button.disabled = [false, false] :=
  ⟨by decide, by decide, by decide, by decide⟩

/-- Claim C6, amended: for every page >= 1 and limit >= 1, the rendered
Previous control is disabled exactly when `page = 1`, and the rendered
Next control is disabled exactly when the wrapping u32 product
`page * limit` (taken mod `2^32`, as the source computes it) is at
least `total`; whenever the product does not wrap this coincides with
`page * limit >= total`. -/
theorem c6_amended_theorem (page limit total_bugs : Nat) (hp : 1 ≤ page) (hl : 1 ≤ limit) :
    ∃ prev next, listButtons page limit total_bugs = [prev, next] ∧
      (prev.disabled = true ↔ page = 1) ∧
      (next.disabled = true ↔ (page * limit) % 2 ^ 32 ≥ total_bugs) ∧
      (page * limit < 2 ^ 32 →
        (next.disabled = true ↔ page * limit ≥ total_bugs)) := by
  refine ⟨_, _, rfl, ?_, ?_, ?_⟩
  · simp [listButtons]
    omega
  · simp [listButtons]
  · intro hw
    simp [listButtons]
    omega

/-- Claim C6, witness: Example A — `total = 23`, `limit = 10`,
`page = 1`: Previous disabled, Next enabled, and the product 10 does
not wrap, so the plain condition applies. -/
theorem c6_amended_witness :
    ∃ prev next, listButtons 1 10 23 = [prev, next] ∧
      (prev.disabled = true ↔ (1 : Nat) = 1) ∧
      (next.disabled = true ↔ (1 * 10) % 2 ^ 32 ≥ (23 : Nat)) ∧
      (1 * 10 < 2 ^ 32 →
        (next.disabled = true ↔ 1 * 10 ≥ (23 : Nat))) :=
  c6_amended_theorem 1 10 23 (by decide) (by decide)

/-- Claim C7: for every total and every limit >= 1, the code's footer
page count `(total.max(1) - 1) / limit + 1` equals the ceiling division
`max(total, 1) ⌈/⌉ limit`, the footer text renders that count, and
Example A's footer is "Page 1/3". -/
theorem c7_theorem (total_bugs limit page : Nat) (hl : 1 ≤ limit) :
    footerPages total_bugs limit = (max total_bugs 1) ⌈/⌉ limit ∧
    footerText page total_bugs limit
      = "Page " ++ toString page ++ "/" ++ toString ((max total_bugs 1) ⌈/⌉ limit) ∧
    footerText 1 23 10 = "Page 1/3" := by
  have h1 : footerPages total_bugs limit = (max total_bugs 1) ⌈/⌉ limit := by
    rw [Nat.ceilDiv_eq_add_pred_div]
    unfold footerPages
    have h3 := Nat.le_max_right total_bugs 1
    have h2 : max total_bugs 1 + limit - 1 = (max total_bugs 1 - 1) + limit := by omega
    rw [h2, Nat.add_div_right _ (by omega : 0 < limit)]
  refine ⟨h1, ?_, by decide⟩
  simp only [footerText, h1]

/-- Claim C7, witness: `total = 23`, `limit = 10`, `page = 1`. -/
theorem c7_witness :
    footerPages 23 10 = (max 23 1) ⌈/⌉ 10 ∧
    footerText 1 23 10
      = "Page " ++ toString 1 ++ "/" ++ toString ((max 23 1) ⌈/⌉ 10) ∧
    footerText 1 23 10 = "Page 1/3" :=
  c7_theorem 23 10 1 (by decide)

/-- Claim C8: when the fetch succeeds, the page is in range and the
joined body text exceeds 4096 bytes (the measure `content.len()` uses),
the operation fails with the content-too-large error after sending the
corrective reply, and every effect it performed is that corrective
reply — no list message is sent and no existing message is edited. -/
theorem c8_theorem (hasStatus : Bool) (limit page total_bugs : Nat)
    (bugs : List String) (gb : Nat → Option (List String × Nat)) (t : ReplyTo)
    (hp : page ≠ 0) (hgb : gb (page - 1) = some (bugs, total_bugs))
    (hrange : (page - 1) * limit < total_bugs)
    (hlen : 4096 < (String.intercalate "\n" bugs).utf8ByteSize) :
    displayBugs hasStatus limit gb page t
      = ⟨[DisplayEffect.failureReply t tooManyBugsText], .err .tooManyBugs⟩ ∧
    ∀ eff ∈ (displayBugs hasStatus limit gb page t).effects,
      ∃ target text, eff = DisplayEffect.failureReply target text := by
  have h := displayBugs_eq_tooMany hasStatus limit page total_bugs bugs gb t hp hgb
    (Nat.lt_of_le_of_lt (Nat.mod_le _ _) hrange) hlen
  refine ⟨h, ?_⟩
  rw [h]
  intro eff heff
  simp at heff
  exact ⟨t, tooManyBugsText, heff⟩

/-- Claim C8, witness: a single 4097-byte bug line on a one-entry first
page aborts with the content-too-large failure reply only. -/
theorem c8_witness :
    displayBugs true 10
        (fun _ => some ([String.mk (List.replicate 4097 'a')], 1)) 1 .message
      = ⟨[DisplayEffect.failureReply .message tooManyBugsText], .err .tooManyBugs⟩ ∧
    ∀ eff ∈ (displayBugs true 10
        (fun _ => some ([String.mk (List.replicate 4097 'a')], 1)) 1 .message).effects,
      ∃ target text, eff = DisplayEffect.failureReply target text :=
  c8_theorem true 10 1 1 [String.mk (List.replicate 4097 'a')]
    (fun _ => some ([String.mk (List.replicate 4097 'a')], 1)) .message
    (by decide) rfl (by decide)
    (by
      show 4096 < (String.intercalate "\n" [String.mk (List.replicate 4097 'a')]).utf8ByteSize
      have h1 : String.intercalate "\n" [String.mk (List.replicate 4097 'a')]
          = String.mk (List.replicate 4097 'a') := rfl
      rw [h1]
      show 4096 < String.utf8ByteSize.go (List.replicate 4097 'a')
      rw [utf8ByteSize_go_replicate]
      omega)

/-- Claim C9: the owner-event routing of the detail loop is defined
exactly for the identifiers "resolve_bug" (to Resolved) and "close_bug"
(to Closed), and an owner event carrying any other identifier drives
the loop into the `unreachable!()` branch (modelled as `none`). -/
theorem c9_theorem :
    (∀ s t, routeStatus s = some t ↔
      ((s = "resolve_bug" ∧ t = BugStatus.resolved)
        ∨ (s = "close_bug" ∧ t = BugStatus.closed))) ∧
    (∀ (owner : Nat) (mlink : Option String) (status : BugStatus)
       (i : Interaction) (rest : List Interaction),
       i.user = owner → routeStatus i.custom_id = none →
       bugRun owner mlink status (i :: rest) = none) := by
  constructor
  · intro s t
    constructor
    · intro h
      unfold routeStatus at h
      split at h <;> simp_all
    · rintro (⟨hs, ht⟩ | ⟨hs, ht⟩) <;> subst hs <;> subst ht <;> rfl
  · intro owner mlink status i rest hu hr
    simp [bugRun, hu, hr]

/-- Claim C9, witness: "resolve_bug" routes to Resolved, and an owner
event with an unroutable identifier panics the detail loop. -/
theorem c9_witness :
    routeStatus "resolve_bug" = some BugStatus.resolved ∧
    bugRun 1 none BugStatus.medium [⟨1, "other_id"⟩] = none :=
  ⟨(c9_theorem.1 "resolve_bug" BugStatus.resolved).mpr (Or.inl ⟨rfl, rfl⟩),
   c9_theorem.2 1 none BugStatus.medium ⟨1, "other_id"⟩ [] rfl (by decide)⟩

/-- Claim C10: the list command's page argument is clamped to a minimum
of 1 — a missing or unparsable argument (None) and an explicit 0 both
start the session at page 1, and every input yields a page >= 1. -/
theorem c10_theorem (arg : Option Nat) :
    ((arg = none ∨ arg = some 0) → pageArg arg = 1) ∧ 1 ≤ pageArg arg := by
  constructor
  · rintro (rfl | rfl) <;> rfl
  · exact Nat.le_max_right _ _

/-- Claim C10, witness: the missing argument and the explicit 0. -/
theorem c10_witness : pageArg none = 1 ∧ 1 ≤ pageArg (some 0) :=
  ⟨(c10_theorem none).1 (Or.inl rfl), (c10_theorem (some 0)).2⟩

end BugReports
